import Mathlib

/-!
Shallow embedding of `app.py` (image text and visual-element extractor).

The program is a four-stage pipeline:
  1. `extract_text`          — OCR via pytesseract (external engine);
  2. `segment_visual_elements` — cv2 grayscale / Otsu threshold / external
     contours, then an area filter keeping contours of area > 1000;
  3. `save_visual_elements`  — bounding-box crop of each surviving contour,
     written to `output_dir/element_<i>.png`;
  4. `generate_html`         — a minimal HTML report string.

External library calls (pytesseract, cv2 image decoding / conversion /
thresholding / contour finding, the filesystem) are modelled as explicit
environments whose results, including failures, are injected; the original
logic of the script (the area filter, bounding boxes, path numbering,
error recovery at each stage boundary, HTML assembly) is embedded directly.
`cv2.contourArea` is Green's (shoelace) formula on the contour's integer
vertices, exact in rationals; `cv2.boundingRect` is the minimal axis-aligned
integer rectangle of the vertices (width = xmax - xmin + 1, etc.).
-/

/-- A contour vertex, integer pixel coordinates as produced by cv2. -/
abbrev Point := ℤ × ℤ

/-- A contour: the ordered vertex list cv2.findContours returns. -/
abbrev Contour := List Point

/-- A decoded raster image, as a row-major grid of pixel values
(channel packing is irrelevant to every claim). -/
abbrev Image := List (List ℕ)

/-- An in-memory PIL image handle (opaque to the pipeline). -/
structure PILImage where
  id : ℕ
deriving DecidableEq

/-- Cross-product sum of `cv2.contourArea`'s Green formula: pairs each
vertex with its successor, the last vertex wrapping to `first`. -/
def shoelaceAux (first : Point) : Contour → ℤ
  | [] => 0
  | [q] => q.1 * first.2 - first.1 * q.2
  | q :: r :: rest => (q.1 * r.2 - r.1 * q.2) + shoelaceAux first (r :: rest)

/-- Twice the signed enclosed area of a closed polygon. -/
def shoelace : Contour → ℤ
  | [] => 0
  | p :: ps => shoelaceAux p (p :: ps)

/-- Models `cv2.contourArea`: absolute enclosed area by Green's formula
(exact for integer vertices). -/
def contourArea (c : Contour) : ℚ :=
  ((shoelace c).natAbs : ℚ) / 2

/-- The filter loop of `segment_visual_elements` (app.py lines 33-37):
keep exactly the contours whose `cv2.contourArea` exceeds 1000. -/
def filterContours (cs : List Contour) : List Contour :=
  cs.filter (fun c => contourArea c > 1000)

/-- Environment of cv2 calls made by `segment_visual_elements`; each can
fail (raise), and `imread` can instead return null. -/
structure CVEnv where
  imread : String → Option Image
  cvtColor : Image → Except String Image
  threshold : Image → Except String Image
  findContours : Image → Except String (List Contour)

/-- The `try` body of `segment_visual_elements` (app.py lines 27-39):
read, convert to gray, binarize, find contours, filter by area.
`cv2.imread` returns null on an unreadable path and the subsequent
`cv2.cvtColor(None, ...)` raises, modelled by the `none` branch. -/
def segmentBody (cv : CVEnv) (image_path : String) :
    Except String (Image × List Contour) :=
  match cv.imread image_path with
  | none => Except.error "cvtColor: the source image is null"
  | some image => do
      let gray ← cv.cvtColor image
      let binary ← cv.threshold gray
      let contours ← cv.findContours binary
      Except.ok (image, filterContours contours)

/-- `segment_visual_elements` (app.py lines 25-42): on any exception the
handler returns `(None, [])`. -/
def segment_visual_elements (cv : CVEnv) (image_path : String) :
    Option Image × List Contour :=
  match segmentBody cv image_path with
  | Except.ok (image, filtered) => (some image, filtered)
  | Except.error _ => (none, [])

/-- `generate_html` (app.py lines 62-68): string concatenation, with the
f-string interpolations made explicit. -/
def generate_html (text : String) (element_paths : List String) : String :=
  let html_content := "<html><body>"
  let html_content := html_content ++ ("<p>" ++ text ++ "</p>")
  let html_content := element_paths.foldl
    (fun acc path => acc ++ ("<img src=\"" ++ path ++ "\" />")) html_content
  html_content ++ "</body></html>"

/-- Concatenation of the img tags of a path list, in order (closed form of
the append loop in `generate_html`). -/
def imgTags : List String → String
  | [] => ""
  | p :: ps => ("<img src=\"" ++ p ++ "\" />") ++ imgTags ps

lemma foldl_imgTags (ps : List String) :
    ∀ s : String,
      ps.foldl (fun acc path => acc ++ ("<img src=\"" ++ path ++ "\" />")) s
        = s ++ imgTags ps := by
  induction ps with
  | nil => intro s; rw [List.foldl_nil, imgTags, String.append_empty]
  | cons p ps ih =>
      intro s
      rw [List.foldl_cons, ih, imgTags, String.append_assoc]

lemma generate_html_closed (text : String) (ps : List String) :
    generate_html text ps
      = "<html><body>" ++ ("<p>" ++ text ++ "</p>") ++ imgTags ps
          ++ "</body></html>" := by
  simp only [generate_html, foldl_imgTags]

lemma contourArea_gt_iff (c : Contour) :
    contourArea c > 1000 ↔ 2000 < (shoelace c).natAbs := by
  rw [contourArea, gt_iff_lt, lt_div_iff₀ (by norm_num : (0:ℚ) < 2)]
  norm_num

lemma filterContours_eq (cs : List Contour) :
    filterContours cs = cs.filter (fun c => 2000 < (shoelace c).natAbs) := by
  unfold filterContours
  apply List.filter_congr
  intro c _
  rw [decide_eq_decide]
  exact contourArea_gt_iff c

/-- Errors `pytesseract.image_to_string` can raise: the engine-specific
`TesseractError`, or any other exception. -/
inductive OCRError where
  | tesseract (msg : String)
  | other (msg : String)
deriving DecidableEq

/-- Environment of the OCR engine call made by `extract_text`. -/
structure OCREnv where
  image_to_string : PILImage → Except OCRError String

/-- `extract_text` (app.py lines 13-22): return the engine's text, or the
fixed placeholder on `TesseractError` and on any other exception. -/
def extract_text (ocr : OCREnv) (image : PILImage) : String :=
  match ocr.image_to_string image with
  | Except.ok text => text
  | Except.error (OCRError.tesseract _) => "Text extraction failed. Please try again."
  | Except.error (OCRError.other _) => "Text extraction failed. Please try again."

/-- An axis-aligned rectangle as returned by `cv2.boundingRect`. -/
structure Rect where
  x : ℤ
  y : ℤ
  w : ℤ
  h : ℤ
deriving DecidableEq

/-- Models `cv2.boundingRect`: the minimal up-right integer rectangle
containing the contour's vertices (width = xmax - xmin + 1,
height = ymax - ymin + 1; the zero rectangle on an empty contour). -/
def boundingRect : Contour → Rect
  | [] => ⟨0, 0, 0, 0⟩
  | p :: ps =>
    ⟨ps.foldl (fun m q => min m q.1) p.1,
      ps.foldl (fun m q => min m q.2) p.2,
      ps.foldl (fun m q => max m q.1) p.1 - ps.foldl (fun m q => min m q.1) p.1 + 1,
      ps.foldl (fun m q => max m q.2) p.2 - ps.foldl (fun m q => min m q.2) p.2 + 1⟩

/-- Models the numpy slice `image[y:y+h, x:x+w]` (clamping semantics for
in-range nonnegative bounds). -/
def cropImage (image : Image) (x y w h : ℤ) : Image :=
  ((image.drop y.toNat).take h.toNat).map
    (fun row => (row.drop x.toNat).take w.toNat)

/-- Models `os.path.join` for the POSIX-style relative components the
script uses. -/
def pathJoin (d f : String) : String :=
  if d = "" then f
  else if d.data.getLast? = some '/' then d ++ f
  else d ++ "/" ++ f

/-- Filesystem state plus injected faults: `failWrites` lists the paths
whose `cv2.imwrite` raises, `failMkdir` makes `os.makedirs` raise. -/
structure FS where
  dirs : List String
  files : List String
  failMkdir : Bool
  failWrites : List String
deriving DecidableEq

/-- Lines 47-48 of app.py: `if not os.path.exists(output_dir):
os.makedirs(output_dir)`, with the injected mkdir fault. -/
def ensureDir (fs : FS) (d : String) : FS × Except String Unit :=
  if d ∈ fs.dirs then (fs, Except.ok ())
  else if fs.failMkdir then (fs, Except.error "makedirs failed")
  else ({ fs with dirs := fs.dirs ++ [d] }, Except.ok ())

/-- Models `cv2.imwrite(element_path, visual_element)`: records the path
written, or raises if the path carries an injected fault. -/
def writeFile (fs : FS) (path : String) (_img : Image) : FS × Except String Unit :=
  if path ∈ fs.failWrites then (fs, Except.error "imwrite failed")
  else ({ fs with files := fs.files ++ [path] }, Except.ok ())

/-- The write loop of `save_visual_elements` (app.py lines 50-55): for the
`i`-th contour, bounding-box crop, write `element_<i>.png`, accumulate the
path; propagate (re-raise) the first failure, keeping earlier filesystem
effects. The `none` image branch models `None[y:y+h, x:x+w]` raising. -/
def writeElems (image : Option Image) (output_dir : String) :
    FS → List Contour → ℕ → List String → FS × Except String (List String)
  | fs, [], _, acc => (fs, Except.ok acc)
  | fs, contour :: rest, i, acc =>
    match image with
    | none => (fs, Except.error "TypeError: NoneType is not subscriptable")
    | some img =>
      let r := boundingRect contour
      let visual_element := cropImage img r.x r.y r.w r.h
      let element_path := pathJoin output_dir ("element_" ++ toString i ++ ".png")
      match writeFile fs element_path visual_element with
      | (fs2, Except.ok _) =>
          writeElems image output_dir fs2 rest (i + 1) (acc ++ [element_path])
      | (fs2, Except.error e) => (fs2, Except.error e)

/-- `save_visual_elements` (app.py lines 45-59): create the output
directory if absent, write one numbered crop per contour; the exception
handler returns `[]` (discarding any accumulated paths), while filesystem
effects already performed persist. -/
def save_visual_elements (fs : FS) (image : Option Image)
    (contours : List Contour) (output_dir : String) : FS × List String :=
  match ensureDir fs output_dir with
  | (fs1, Except.error _) => (fs1, [])
  | (fs1, Except.ok _) =>
    match writeElems image output_dir fs1 contours 0 [] with
    | (fs2, Except.ok element_paths) => (fs2, element_paths)
    | (fs2, Except.error _) => (fs2, [])

/-- The per-upload pipeline of `main` (app.py lines 99-115): extract text,
segment, materialize into `output_elements`, build the report string. -/
def runPipeline (ocr : OCREnv) (cv : CVEnv) (fs : FS) (image : PILImage)
    (image_path : String) : String :=
  let text := extract_text ocr image
  let seg := segment_visual_elements cv image_path
  let element_paths := (save_visual_elements fs seg.1 seg.2 "output_elements").2
  generate_html text element_paths

/-- A square contour of enclosed area 2500 px² (Green formula). -/
def square2500 : Contour := [(0, 0), (50, 0), (50, 50), (0, 50)]

/-- A rectangular contour of enclosed area 500 px². -/
def rect500 : Contour := [(0, 0), (25, 0), (25, 20), (0, 20)]

/-- A tiny concrete decoded image for witnesses. -/
def imgC : Image := [[1, 2], [3, 4]]

/-- A cv2 environment on which every stage succeeds and contour finding
yields one 2500 px² and one 500 px² region. -/
def cvC : CVEnv :=
  { imread := fun _ => some imgC
    cvtColor := fun i => Except.ok i
    threshold := fun i => Except.ok i
    findContours := fun _ => Except.ok [square2500, rect500] }

/-- A cv2 environment whose image read yields null (unreadable image). -/
def cvBad : CVEnv :=
  { imread := fun _ => none
    cvtColor := fun i => Except.ok i
    threshold := fun i => Except.ok i
    findContours := fun _ => Except.ok [] }

/-- An OCR environment whose engine raises a TesseractError. -/
def ocrErr : OCREnv :=
  { image_to_string := fun _ => Except.error (OCRError.tesseract "engine crashed") }

/-- A concrete PIL image handle. -/
def pilC : PILImage := ⟨0⟩

/-- A pristine filesystem with no injected faults. -/
def fs0 : FS := ⟨[], [], false, []⟩

/-- A filesystem on which writing the second element crop raises. -/
def fsWriteFail : FS := ⟨[], [], false, ["output_elements/element_1.png"]⟩

lemma foldl_min_le_init (g : Point → ℤ) :
    ∀ (l : List Point) (a : ℤ), l.foldl (fun m q => min m (g q)) a ≤ a := by
  intro l
  induction l with
  | nil => intro a; simp
  | cons q l ih =>
      intro a
      rw [List.foldl_cons]
      exact le_trans (ih (min a (g q))) (min_le_left _ _)

lemma le_foldl_min (g : Point → ℤ) :
    ∀ (l : List Point) (a b : ℤ), b ≤ a → (∀ q ∈ l, b ≤ g q) →
      b ≤ l.foldl (fun m q => min m (g q)) a := by
  intro l
  induction l with
  | nil => intro a b hb _; simpa using hb
  | cons q l ih =>
      intro a b hb h
      rw [List.foldl_cons]
      exact ih _ _ (le_min hb (h q (List.mem_cons_self q l)))
        (fun r hr => h r (List.mem_cons_of_mem q hr))

lemma init_le_foldl_max (g : Point → ℤ) :
    ∀ (l : List Point) (a : ℤ), a ≤ l.foldl (fun m q => max m (g q)) a := by
  intro l
  induction l with
  | nil => intro a; simp
  | cons q l ih =>
      intro a
      rw [List.foldl_cons]
      exact le_trans (le_max_left _ _) (ih (max a (g q)))

lemma foldl_max_le (g : Point → ℤ) :
    ∀ (l : List Point) (a b : ℤ), a ≤ b → (∀ q ∈ l, g q ≤ b) →
      l.foldl (fun m q => max m (g q)) a ≤ b := by
  intro l
  induction l with
  | nil => intro a b ha _; simpa using ha
  | cons q l ih =>
      intro a b ha h
      rw [List.foldl_cons]
      exact ih _ _ (max_le ha (h q (List.mem_cons_self q l)))
        (fun r hr => h r (List.mem_cons_of_mem q hr))

lemma foldl_min_le_foldl_max (g : Point → ℤ) :
    ∀ (l : List Point) (a b : ℤ), a ≤ b →
      l.foldl (fun m q => min m (g q)) a ≤ l.foldl (fun m q => max m (g q)) b := by
  intro l
  induction l with
  | nil => intro a b h; simpa using h
  | cons q l ih =>
      intro a b h
      rw [List.foldl_cons, List.foldl_cons]
      exact ih _ _ (le_trans (min_le_left _ _) (le_trans h (le_max_left _ _)))

lemma ensureDir_snd_ok (fs : FS) (d : String) (h : fs.failMkdir = false) :
    (ensureDir fs d).2 = Except.ok () := by
  unfold ensureDir
  split
  · rfl
  · rw [h]; simp

lemma ensureDir_failWrites (fs : FS) (d : String) :
    (ensureDir fs d).1.failWrites = fs.failWrites := by
  unfold ensureDir
  split
  · rfl
  · split <;> rfl

lemma ensureDir_mem_dirs (fs : FS) (d : String) (h : fs.failMkdir = false) :
    d ∈ (ensureDir fs d).1.dirs := by
  unfold ensureDir
  split
  · next hc => simpa using hc
  · rw [h]
    simp

lemma writeElems_dirs (image : Option Image) (dir : String) :
    ∀ (cs : List Contour) (fs : FS) (i : ℕ) (acc : List String),
      (writeElems image dir fs cs i acc).1.dirs = fs.dirs := by
  intro cs
  induction cs with
  | nil => intro fs i acc; rfl
  | cons c rest ih =>
      intro fs i acc
      cases image with
      | none => rfl
      | some img =>
          simp only [writeElems, writeFile]
          by_cases hc :
            pathJoin dir ("element_" ++ toString i ++ ".png") ∈ fs.failWrites
          · rw [if_pos hc]
          · rw [if_neg hc]
            exact ih _ _ _

lemma map_range_path_shift (dir : String) :
    ∀ (n i : ℕ),
      (List.range (n + 1)).map
          (fun j => pathJoin dir ("element_" ++ toString (i + j) ++ ".png"))
        = pathJoin dir ("element_" ++ toString i ++ ".png")
            :: (List.range n).map
              (fun j => pathJoin dir ("element_" ++ toString (i + 1 + j) ++ ".png")) := by
  intro n i
  rw [List.range_succ_eq_map, List.map_cons, List.map_map]
  congr 1
  apply List.map_congr_left
  intro j _
  simp only [Function.comp_apply, Nat.succ_eq_add_one]
  rw [show i + (j + 1) = i + 1 + j from by omega]

lemma writeElems_all_ok (img : Image) (dir : String) :
    ∀ (cs : List Contour) (ds fls : List String) (fm : Bool) (i : ℕ) (acc : List String),
      (writeElems (some img) dir ⟨ds, fls, fm, []⟩ cs i acc).2
        = Except.ok (acc ++ (List.range cs.length).map
            (fun j => pathJoin dir ("element_" ++ toString (i + j) ++ ".png"))) := by
  intro cs
  induction cs with
  | nil => intro ds fls fm i acc; simp [writeElems]
  | cons c rest ih =>
      intro ds fls fm i acc
      simp only [writeElems, writeFile]
      rw [if_neg (by simp)]
      rw [ih ds (fls ++ [pathJoin dir ("element_" ++ toString i ++ ".png")]) fm (i + 1)
        (acc ++ [pathJoin dir ("element_" ++ toString i ++ ".png")])]
      rw [List.length_cons, map_range_path_shift dir rest.length i]
      conv_rhs => rw [List.append_cons]

lemma ensureDir_no_fault (ds fls fw : List String) (d : String) :
    ensureDir ⟨ds, fls, false, fw⟩ d
      = (⟨if d ∈ ds then ds else ds ++ [d], fls, false, fw⟩, Except.ok ()) := by
  by_cases hd : d ∈ ds
  · simp [ensureDir, hd]
  · simp [ensureDir, hd]

lemma writeElems_all_ok_zero (img : Image) (dir : String) (cs : List Contour)
    (ds fls : List String) (fm : Bool) :
    (writeElems (some img) dir ⟨ds, fls, fm, []⟩ cs 0 []).2
      = Except.ok ((List.range cs.length).map
          (fun j => pathJoin dir ("element_" ++ toString j ++ ".png"))) := by
  rw [writeElems_all_ok]
  simp

lemma save_all_ok (img : Image) (cs : List Contour) (dir : String)
    (ds fls : List String) :
    (save_visual_elements ⟨ds, fls, false, []⟩ (some img) cs dir).2
      = (List.range cs.length).map
          (fun i => pathJoin dir ("element_" ++ toString i ++ ".png")) := by
  have h2 := writeElems_all_ok_zero img dir cs (if dir ∈ ds then ds else ds ++ [dir]) fls false
  rcases hw : writeElems (some img) dir
      ⟨if dir ∈ ds then ds else ds ++ [dir], fls, false, []⟩ cs 0 [] with ⟨fs2, r2⟩
  rw [hw] at h2
  simp only [save_visual_elements, ensureDir_no_fault, hw]
  cases r2 with
  | error e => exact absurd h2 (by simp)
  | ok paths => simpa using h2

lemma save_empty (fs : FS) (image : Option Image) (dir : String) :
    (save_visual_elements fs image [] dir).2 = [] := by
  rcases he : ensureDir fs dir with ⟨fs1, r1⟩
  cases r1 <;> simp [save_visual_elements, he, writeElems]

/-- C5: absent failure, `save_visual_elements` returns exactly one path per
input contour, the `i`-th being `outputDir/element_<i>.png` for the
zero-based input index `i` (a contiguous zero-based range in input order);
an empty contour list yields an empty path list. -/
theorem save_visual_elements_paths_spec (fs : FS) (img : Image)
    (cs : List Contour) (dir : String)
    (hm : fs.failMkdir = false) (hw : fs.failWrites = []) :
    (save_visual_elements fs (some img) cs dir).2
        = (List.range cs.length).map
            (fun i => pathJoin dir ("element_" ++ toString i ++ ".png"))
      ∧ (save_visual_elements fs (some img) cs dir).2.length = cs.length
      ∧ (save_visual_elements fs (some img) [] dir).2 = [] := by
  obtain ⟨ds, fls, fm, fw⟩ := fs
  replace hm : fm = false := hm
  replace hw : fw = [] := hw
  subst hm
  subst hw
  refine ⟨save_all_ok img cs dir ds fls, ?_, save_empty _ _ _⟩
  rw [save_all_ok img cs dir ds fls]
  simp

/-- C5 witness: two contours into a pristine filesystem yield exactly
`output_elements/element_0.png` and `output_elements/element_1.png`. -/
theorem save_visual_elements_paths_spec_witness :
    fs0.failMkdir = false
    ∧ fs0.failWrites = []
    ∧ (save_visual_elements fs0 (some imgC) [square2500, rect500] "output_elements").2
        = ["output_elements/element_0.png", "output_elements/element_1.png"] :=
  ⟨rfl, rfl, by
    rw [(save_visual_elements_paths_spec fs0 imgC [square2500, rect500]
      "output_elements" rfl rfl).1]
    rfl⟩

/-- C9: `save_visual_elements` ensures the output directory exists on every
call on which `os.makedirs` does not itself fail — also when the contour
list is empty and no element file is written. -/
theorem save_visual_elements_creates_dir (fs : FS) (image : Option Image)
    (cs : List Contour) (dir : String) (hm : fs.failMkdir = false) :
    dir ∈ (save_visual_elements fs image cs dir).1.dirs := by
  rcases he : ensureDir fs dir with ⟨fs1, r1⟩
  have hd : dir ∈ fs1.dirs := by
    have h := ensureDir_mem_dirs fs dir hm
    rw [he] at h
    exact h
  cases r1 with
  | error e => simpa [save_visual_elements, he] using hd
  | ok u =>
      rcases hw2 : writeElems image dir fs1 cs 0 [] with ⟨fs2, r2⟩
      have hdirs : fs2.dirs = fs1.dirs := by
        have h := writeElems_dirs image dir cs fs1 0 []
        rw [hw2] at h
        exact h
      cases r2 <;> simpa [save_visual_elements, he, hw2, hdirs] using hd

/-- C9 witness: with an empty contour list and nothing written, the call
still creates `output_elements`. -/
theorem save_visual_elements_creates_dir_witness :
    fs0.failMkdir = false
    ∧ "output_elements" ∈ (save_visual_elements fs0 none [] "output_elements").1.dirs :=
  ⟨rfl, save_visual_elements_creates_dir fs0 none [] "output_elements" rfl⟩

/-- C1 counterexample: writing the second crop fails after the first
succeeded; the first path was successfully written (it is on disk), yet the
function returns `[]`, not the partial list of successfully written
paths. -/
theorem save_visual_elements_partial_paths_cex :
    (save_visual_elements fsWriteFail (some imgC) [square2500, square2500]
        "output_elements").2 = []
    ∧ (save_visual_elements fsWriteFail (some imgC) [square2500, square2500]
        "output_elements").1.files = ["output_elements/element_0.png"]
    ∧ ([] : List String) ≠ ["output_elements/element_0.png"] :=
  ⟨rfl, rfl, by decide⟩

/-- C1 (amended): any I/O or encoding failure (directory creation or a crop
write) aborts materialization and returns the empty list — the paths
written before the failure are discarded from the return value (though the
files persist on disk) — and this empty list is what reaches the report. -/
theorem save_visual_elements_failure_returns_empty (fs : FS)
    (image : Option Image) (cs : List Contour) (dir : String) (e : String) :
    ((ensureDir fs dir).2 = Except.error e →
        (save_visual_elements fs image cs dir).2 = [])
    ∧ ((ensureDir fs dir).2 = Except.ok () →
        (writeElems image dir (ensureDir fs dir).1 cs 0 []).2 = Except.error e →
        (save_visual_elements fs image cs dir).2 = []) := by
  rcases he : ensureDir fs dir with ⟨fs1, r1⟩
  constructor
  · intro h1
    simp only [he] at h1
    subst h1
    simp [save_visual_elements, he]
  · intro h1 h2
    simp only [he] at h1 h2
    subst h1
    rcases hw2 : writeElems image dir fs1 cs 0 [] with ⟨fs2, r2⟩
    rw [hw2] at h2
    simp only at h2
    subst h2
    simp [save_visual_elements, he, hw2]

/-- C1 witness for the amended claim: the concrete failing run returns `[]`. -/
theorem save_visual_elements_failure_returns_empty_witness :
    (ensureDir fsWriteFail "output_elements").2 = Except.ok ()
    ∧ (writeElems (some imgC) "output_elements"
        (ensureDir fsWriteFail "output_elements").1 [square2500, square2500] 0 []).2
        = Except.error "imwrite failed"
    ∧ (save_visual_elements fsWriteFail (some imgC) [square2500, square2500]
        "output_elements").2 = [] :=
  ⟨rfl, rfl, (save_visual_elements_failure_returns_empty fsWriteFail (some imgC)
      [square2500, square2500] "output_elements" "imwrite failed").2 rfl rfl⟩

/-- C2: a found contour survives segmentation iff its enclosed area is
strictly greater than 1000; `segment_visual_elements` returns exactly the
filtered list of the contours the engine found; for one 2500 px² region
and one 500 px² region exactly one contour (the 2500 px² one) survives. -/
theorem segment_area_filter_iff :
    (∀ (cs : List Contour) (c : Contour),
        c ∈ filterContours cs ↔ (c ∈ cs ∧ contourArea c > 1000))
    ∧ (∀ (cv : CVEnv) (p : String) (image gray binary : Image) (cs : List Contour),
        cv.imread p = some image → cv.cvtColor image = Except.ok gray →
        cv.threshold gray = Except.ok binary →
        cv.findContours binary = Except.ok cs →
        segment_visual_elements cv p = (some image, filterContours cs))
    ∧ contourArea square2500 = 2500
    ∧ contourArea rect500 = 500
    ∧ filterContours [square2500, rect500] = [square2500]
    ∧ (filterContours [square2500, rect500]).length = 1 := by
  refine ⟨?_, ?_, ?_, ?_, ?_, ?_⟩
  · intro cs c
    simp [filterContours, List.mem_filter]
  · intro cv p image gray binary cs h1 h2 h3 h4
    simp [segment_visual_elements, segmentBody, h1, h2, h3, h4,
      Except.instMonad, Except.bind]
  · rw [contourArea, (by decide : shoelace square2500 = 5000)]
    norm_num
  · rw [contourArea, (by decide : shoelace rect500 = 1000)]
    norm_num
  · rw [filterContours_eq]
    decide
  · rw [filterContours_eq]
    decide

/-- C2 witness: a concrete successful run returning exactly the one
surviving contour. -/
theorem segment_area_filter_iff_witness :
    cvC.imread "temp_upload.png" = some imgC
    ∧ cvC.cvtColor imgC = Except.ok imgC
    ∧ cvC.threshold imgC = Except.ok imgC
    ∧ cvC.findContours imgC = Except.ok [square2500, rect500]
    ∧ segment_visual_elements cvC "temp_upload.png" = (some imgC, [square2500]) :=
  ⟨rfl, rfl, rfl, rfl, by
    rw [segment_area_filter_iff.2.1 cvC "temp_upload.png" imgC imgC imgC
      [square2500, rect500] rfl rfl rfl rfl]
    rw [show filterContours [square2500, rect500] = [square2500] from by
      rw [filterContours_eq]; decide]⟩

/-- C3: whenever the OCR engine raises (TesseractError or any other
exception), `extract_text` returns exactly the placeholder string, and the
pipeline still produces the report built from that placeholder and the
materialized element paths. -/
theorem extract_text_failure_placeholder (ocr : OCREnv) (cv : CVEnv) (fs : FS)
    (image : PILImage) (p : String) (e : OCRError)
    (h : ocr.image_to_string image = Except.error e) :
    extract_text ocr image = "Text extraction failed. Please try again."
    ∧ runPipeline ocr cv fs image p
        = generate_html "Text extraction failed. Please try again."
            ((save_visual_elements fs (segment_visual_elements cv p).1
              (segment_visual_elements cv p).2 "output_elements").2) := by
  have hx : extract_text ocr image = "Text extraction failed. Please try again." := by
    cases e <;> simp [extract_text, h]
  exact ⟨hx, by simp [runPipeline, hx]⟩

/-- C3 witness: a concrete engine failure still yields a report. -/
theorem extract_text_failure_placeholder_witness :
    ocrErr.image_to_string pilC = Except.error (OCRError.tesseract "engine crashed")
    ∧ extract_text ocrErr pilC = "Text extraction failed. Please try again."
    ∧ runPipeline ocrErr cvC fs0 pilC "temp_upload.png"
        = generate_html "Text extraction failed. Please try again."
            ((save_visual_elements fs0 (segment_visual_elements cvC "temp_upload.png").1
              (segment_visual_elements cvC "temp_upload.png").2 "output_elements").2) :=
  ⟨rfl,
    (extract_text_failure_placeholder ocrErr cvC fs0 pilC "temp_upload.png"
      (OCRError.tesseract "engine crashed") rfl).1,
    (extract_text_failure_placeholder ocrErr cvC fs0 pilC "temp_upload.png"
      (OCRError.tesseract "engine crashed") rfl).2⟩

/-- C4: any exception inside segmentation makes `segment_visual_elements`
return `(none, [])`, and the pipeline then materializes nothing and still
produces a report (with an empty element list) instead of aborting. -/
theorem segment_error_returns_none_empty (cv : CVEnv) (p : String) (e : String)
    (h : segmentBody cv p = Except.error e) :
    segment_visual_elements cv p = (none, [])
    ∧ ∀ (ocr : OCREnv) (fs : FS) (image : PILImage),
        runPipeline ocr cv fs image p
          = generate_html (extract_text ocr image) [] := by
  have hs : segment_visual_elements cv p = (none, []) := by
    simp [segment_visual_elements, h]
  refine ⟨hs, ?_⟩
  intro ocr fs image
  simp [runPipeline, hs, save_empty]

/-- C4 witness: an unreadable image (null `imread`) produces `(none, [])`
and a report with zero elements. -/
theorem segment_error_returns_none_empty_witness :
    segmentBody cvBad "temp_upload.png"
        = Except.error "cvtColor: the source image is null"
    ∧ segment_visual_elements cvBad "temp_upload.png" = (none, [])
    ∧ runPipeline ocrErr cvBad fs0 pilC "temp_upload.png"
        = generate_html (extract_text ocrErr pilC) [] :=
  ⟨rfl,
    (segment_error_returns_none_empty cvBad "temp_upload.png"
      "cvtColor: the source image is null" rfl).1,
    (segment_error_returns_none_empty cvBad "temp_upload.png"
      "cvtColor: the source image is null" rfl).2 ocrErr fs0 pilC⟩

/-- A path containing a double quote and angle brackets, for C10. -/
def badPath : String := "x\"><script>x"

/-- C6: `generate_html` is pure and deterministic — identical text and path
arguments yield byte-identical output strings. -/
theorem generate_html_deterministic (t1 t2 : String) (ps1 ps2 : List String)
    (ht : t1 = t2) (hp : ps1 = ps2) :
    generate_html t1 ps1 = generate_html t2 ps2 := by
  rw [ht, hp]

/-- C6 witness: two calls with identical concrete arguments agree. -/
theorem generate_html_deterministic_witness :
    "abc" = "abc"
    ∧ (["a.png"] : List String) = ["a.png"]
    ∧ generate_html "abc" ["a.png"] = generate_html "abc" ["a.png"] :=
  ⟨rfl, rfl, generate_html_deterministic "abc" "abc" ["a.png"] ["a.png"] rfl rfl⟩

/-- C7: the report is exactly `<html><body>`, one paragraph holding the raw
unescaped text, one img tag per element path in input order, and
`</body></html>`; for empty text and no paths it is exactly
`<html><body><p></p></body></html>`. -/
theorem generate_html_structure :
    (∀ (text : String) (ps : List String),
        generate_html text ps
          = "<html><body>" ++ ("<p>" ++ text ++ "</p>") ++ imgTags ps
              ++ "</body></html>")
    ∧ imgTags [] = ""
    ∧ (∀ (p : String) (ps : List String),
        imgTags (p :: ps) = ("<img src=\"" ++ p ++ "\" />") ++ imgTags ps)
    ∧ generate_html "" [] = "<html><body><p></p></body></html>" :=
  ⟨generate_html_closed, rfl, fun _ _ => rfl, rfl⟩

/-- C8: every contour surviving the area filter, all of whose vertices lie
inside the image, gets a bounding box with 0 ≤ x, 0 ≤ y, x+w ≤ width,
y+h ≤ height, w > 0 and h > 0. -/
theorem boundingRect_within_bounds (c : Contour) (W H : ℤ)
    (hin : ∀ q ∈ c, 0 ≤ q.1 ∧ q.1 < W ∧ 0 ≤ q.2 ∧ q.2 < H)
    (harea : contourArea c > 1000) :
    0 ≤ (boundingRect c).x ∧ 0 ≤ (boundingRect c).y
    ∧ (boundingRect c).x + (boundingRect c).w ≤ W
    ∧ (boundingRect c).y + (boundingRect c).h ≤ H
    ∧ 0 < (boundingRect c).w ∧ 0 < (boundingRect c).h := by
  cases c with
  | nil =>
      rw [contourArea_gt_iff] at harea
      simp [shoelace] at harea
  | cons p ps =>
      have hp := hin p (List.mem_cons_self p ps)
      have hps : ∀ q ∈ ps, 0 ≤ q.1 ∧ q.1 < W ∧ 0 ≤ q.2 ∧ q.2 < H :=
        fun q hq => hin q (List.mem_cons_of_mem p hq)
      have hx0 : 0 ≤ ps.foldl (fun m q => min m q.1) p.1 :=
        le_foldl_min Prod.fst ps p.1 0 hp.1 (fun q hq => (hps q hq).1)
      have hy0 : 0 ≤ ps.foldl (fun m q => min m q.2) p.2 :=
        le_foldl_min Prod.snd ps p.2 0 hp.2.2.1 (fun q hq => (hps q hq).2.2.1)
      have hx1 : ps.foldl (fun m q => max m q.1) p.1 ≤ W - 1 :=
        foldl_max_le Prod.fst ps p.1 (W - 1)
          (by have := hp.2.1; omega)
          (fun q hq => by have := (hps q hq).2.1; omega)
      have hy1 : ps.foldl (fun m q => max m q.2) p.2 ≤ H - 1 :=
        foldl_max_le Prod.snd ps p.2 (H - 1)
          (by have := hp.2.2.2; omega)
          (fun q hq => by have := (hps q hq).2.2.2; omega)
      have hmx : ps.foldl (fun m q => min m q.1) p.1
          ≤ ps.foldl (fun m q => max m q.1) p.1 :=
        foldl_min_le_foldl_max Prod.fst ps p.1 p.1 le_rfl
      have hmy : ps.foldl (fun m q => min m q.2) p.2
          ≤ ps.foldl (fun m q => max m q.2) p.2 :=
        foldl_min_le_foldl_max Prod.snd ps p.2 p.2 le_rfl
      simp only [boundingRect]
      refine ⟨hx0, hy0, by omega, by omega, by omega, by omega⟩

/-- C8 witness: the 2500 px² square in a 200×200 image. -/
theorem boundingRect_within_bounds_witness :
    contourArea square2500 > 1000
    ∧ 0 ≤ (boundingRect square2500).x ∧ 0 ≤ (boundingRect square2500).y
    ∧ (boundingRect square2500).x + (boundingRect square2500).w ≤ 200
    ∧ (boundingRect square2500).y + (boundingRect square2500).h ≤ 200
    ∧ 0 < (boundingRect square2500).w ∧ 0 < (boundingRect square2500).h := by
  have harea : contourArea square2500 > 1000 := by
    rw [contourArea_gt_iff]
    decide
  have h := boundingRect_within_bounds square2500 200 200 (by decide) harea
  exact ⟨harea, h.1, h.2.1, h.2.2.1, h.2.2.2.1, h.2.2.2.2.1, h.2.2.2.2.2⟩

/-- C10: each element path is interpolated verbatim (unescaped, unquoted)
into its img tag, so a path containing a double quote or angle bracket
corrupts the produced tag structure exactly as unescaped text does: the
concrete run shows the src attribute ending at the embedded quote and a
stray `<script>` tag opening. -/
theorem generate_html_path_verbatim :
    (∀ (text p : String) (ps : List String),
        generate_html text (p :: ps)
          = "<html><body>" ++ ("<p>" ++ text ++ "</p>")
              ++ (("<img src=\"" ++ p ++ "\" />") ++ imgTags ps)
              ++ "</body></html>")
    ∧ generate_html "" [badPath]
        = "<html><body><p></p><img src=\"x\"><script>x\" /></body></html>" := by
  constructor
  · intro text p ps
    rw [generate_html_closed, imgTags]
  · rfl
